import Mathlib

/-!
Verification development for a small Flask HTTP service (`app.py`) that
proxies a trading-data client behind REST endpoints, adding a connection
pool keyed by asset name and timeout-bounded execution of one async
retrieval per request.

The embedding is shallow: the external client's `connect()` and
`get_candles(...)` calls are modelled by their observable outcome (a
returned value, an `asyncio.TimeoutError` raised by `asyncio.wait_for`,
or some other raised exception carrying a message).  Candle records are
opaque to this layer, so a candle is modelled as an `Int` stand-in.
Timestamps (`time.time()`) are modelled as `Int`.  The process-wide
`connection_pool` dict is modelled as an association list with the usual
dictionary semantics (lookup by key, in-place replacement on assignment,
append on fresh key).
-/

/-- Outcome of awaiting an external async operation under
`asyncio.wait_for`: a normal result, a timeout, or another raised
exception carrying its message string. -/
inductive ExtResult (α : Type) where
  | ok : α → ExtResult α
  | timeout : ExtResult α
  | exn : String → ExtResult α
  deriving Repr, DecidableEq

/-- A candle record.  Its contents are opaque to this service (no
validation is performed), so an `Int` stands in for one record. -/
abbrev Candle := Int

/-- One value of `connection_pool[asset]`: the stored client handle, the
`connected` flag and the `last_used` timestamp (`app.py` lines 52-56). -/
structure PoolEntry where
  client : Int
  connected : Bool
  last_used : Int
  deriving Repr, DecidableEq

/-- The process-wide `connection_pool` dict, keyed by asset name. -/
abbrev Pool := List (String × PoolEntry)

/-- The module-level `Quotex` client instance (`app.py` line 19),
modelled as an opaque handle. -/
def client : Int := 0

/-- `DEFAULT_TIMEOUT = 25` (`app.py` line 28). -/
def DEFAULT_TIMEOUT : Int := 25

/-- Dictionary lookup `connection_pool[asset]` / `asset in connection_pool`. -/
def poolLookup : Pool → String → Option PoolEntry
  | [], _ => none
  | (a, e) :: rest, asset => if a = asset then some e else poolLookup rest asset

/-- Dictionary assignment `connection_pool[asset] = entry`: replace the
entry at the key if present, else append a fresh binding. -/
def poolInsert : Pool → String → PoolEntry → Pool
  | [], asset, e => [(asset, e)]
  | (a, e0) :: rest, asset, e =>
      if a = asset then (a, e) :: rest else (a, e0) :: poolInsert rest asset e

/-- `if asset in connection_pool: connection_pool[asset]['last_used'] = now`
(`app.py` lines 69-70). -/
def touch : Pool → String → Int → Pool
  | [], _, _ => []
  | (a, e) :: rest, asset, t =>
      if a = asset then (a, { e with last_used := t }) :: rest
      else (a, e) :: touch rest asset t

/-- `if asset in connection_pool: connection_pool[asset]['connected'] = False`
(`app.py` lines 80-81). -/
def markDisconnected : Pool → String → Pool
  | [], _ => []
  | (a, e) :: rest, asset =>
      if a = asset then (a, { e with connected := false }) :: rest
      else (a, e) :: markDisconnected rest asset

/-- An exception escaping the `try` body of `get_candle`: either an
`asyncio.TimeoutError` or another exception with a message. -/
inductive PyExn where
  | timeoutErr : PyExn
  | exn : String → PyExn
  deriving Repr, DecidableEq

/-- Result of executing the `try` body of `get_candle` (`app.py` lines
42-76): either a normal `return` or a raised exception.  Both carry the
pool state at that moment (the global dict is mutated in place, so
updates made before a raise persist), the number of times the external
`connect()` was invoked, and the client handle used for the fetch
attempt if one was made. -/
inductive BodyOut where
  | ret : List Candle → Pool → Nat → Option Int → BodyOut
  | raise : PyExn → Pool → Nat → Option Int → BodyOut
  deriving Repr, DecidableEq

/-- The fetch half of `get_candle` (`app.py` lines 61-76): await
`client_instance.get_candles(...)` under `wait_for`, update `last_used`
on normal completion, return the candles or `[]`. -/
def fetchStage (pool : Pool) (asset : String) (cl : Int) (calls : Nat)
    (fetchRes : ExtResult (List Candle)) (t2 : Int) : BodyOut :=
  match fetchRes with
  | .ok candles =>
      let pool2 := touch pool asset t2
      if candles.length > 0 then .ret candles pool2 calls (some cl)
      else .ret [] pool2 calls (some cl)
  | .timeout => .raise .timeoutErr pool calls (some cl)
  | .exn e => .raise (.exn e) pool calls (some cl)

/-- The connect branch of `get_candle` (`app.py` lines 48-59): await
`client_instance.connect()` under `wait_for`; on `check_connect` insert
a live entry and fall through to the fetch, on not-ok return `[]`, on a
raised timeout/exception propagate it. -/
def connectStage (pool : Pool) (asset : String)
    (connectRes : ExtResult (Bool × String)) (fetchRes : ExtResult (List Candle))
    (t1 t2 : Int) : BodyOut :=
  match connectRes with
  | .ok (check_connect, _message) =>
      if check_connect then
        let pool1 := poolInsert pool asset ⟨client, true, t1⟩
        fetchStage pool1 asset client 1 fetchRes t2
      else .ret [] pool 1 none
  | .timeout => .raise .timeoutErr pool 1 none
  | .exn e => .raise (.exn e) pool 1 none

/-- The `try` body of `get_candle` (`app.py` lines 42-76): reuse the
pooled client when a connected entry exists, otherwise connect first.
`t1` and `t2` are the values of `time.time()` at lines 55 and 70. -/
def get_candle_body (pool : Pool) (asset : String)
    (connectRes : ExtResult (Bool × String)) (fetchRes : ExtResult (List Candle))
    (t1 t2 : Int) : BodyOut :=
  match poolLookup pool asset with
  | some e =>
      if e.connected then fetchStage pool asset e.client 0 fetchRes t2
      else connectStage pool asset connectRes fetchRes t1 t2
  | none => connectStage pool asset connectRes fetchRes t1 t2

/-- Observable result of one `get_candle` call: the returned list, the
pool afterwards, how often the external `connect()` was invoked, and
which client handle the fetch was attempted on (if it was reached). -/
structure GetCandleResult where
  candles : List Candle
  pool : Pool
  connectCalls : Nat
  usedClient : Option Int
  deriving Repr, DecidableEq

/-- `get_candle` (`app.py` lines 30-85): run the `try` body and apply
the two handlers — `except TimeoutError` marks the pool entry (if any)
`connected=False` and returns `[]`; `except Exception` returns `[]`. -/
def get_candle (pool : Pool) (asset : String)
    (connectRes : ExtResult (Bool × String)) (fetchRes : ExtResult (List Candle))
    (t1 t2 : Int) : GetCandleResult :=
  match get_candle_body pool asset connectRes fetchRes t1 t2 with
  | .ret cs p calls uc => ⟨cs, p, calls, uc⟩
  | .raise .timeoutErr p calls uc => ⟨[], markDisconnected p asset, calls, uc⟩
  | .raise (.exn _) p calls uc => ⟨[], p, calls, uc⟩

example :
    (get_candle [] "CHFJPY_otc" (.ok (true, "ok")) (.ok [5, 6]) 10 20) =
      ⟨[5, 6], [("CHFJPY_otc", ⟨client, true, 20⟩)], 1, some client⟩ := by decide

example :
    (get_candle [("A", ⟨0, true, 3⟩)] "A" .timeout (.ok []) 10 20) =
      ⟨[], [("A", ⟨0, true, 20⟩)], 0, some 0⟩ := by decide

example :
    (get_candle [("A", ⟨0, true, 3⟩)] "A" (.exn "x") .timeout 10 20) =
      ⟨[], [("A", ⟨0, false, 3⟩)], 0, some 0⟩ := by decide

/-- A JSON value, for the response bodies produced by `jsonify`. -/
inductive Json where
  | str : String → Json
  | num : Int → Json
  | arr : List Json → Json
  | obj : List (String × Json) → Json
  deriving Repr

/-- `request.args.get(name, default, type=int)`: the parsed query
parameter when present, else the default. -/
def request_arg_get (param : Option Int) (default : Int) : Int :=
  match param with
  | some v => v
  | none => default

/-- The error body `jsonify({'status': 'error', 'message': msg, 'data': []})`
built by the `async_endpoint` handlers (`app.py` lines 122-132). -/
def errorBody (msg : String) : Json :=
  .obj [("status", .str "error"), ("message", .str msg), ("data", .arr [])]

/-- The deadline `async_endpoint` enforces on the wrapped handler
(`app.py` lines 109-112): the `timeout` query parameter (defaulting to
the decorator argument, `DEFAULT_TIMEOUT` at both candle routes),
clamped to at most 55. -/
def async_endpoint_timeout (timeout : Int) (timeoutParam : Option Int) : Int :=
  let custom_timeout := request_arg_get timeoutParam timeout
  if custom_timeout > 55 then 55 else custom_timeout

/-- The `try`/`except` translation step of `async_endpoint` (`app.py`
lines 116-132): pass a normal handler response through, turn a deadline
expiry into 408 / "Request timed out", and any other exception into 500
with the exception's message. -/
def async_endpoint_wrap (outcome : ExtResult (Int × Json)) : Int × Json :=
  match outcome with
  | .ok result => result
  | .timeout => (408, errorBody "Request timed out")
  | .exn e => (500, errorBody e)

/-- Observable result of one request to the `/candles` route when the
outer deadline does not expire: HTTP status, JSON body, pool afterwards,
number of external `connect()` invocations, and the raw `timeout` value
the handler forwarded into `get_candle`. -/
structure RouteResult where
  status : Int
  body : Json
  pool : Pool
  connectCalls : Nat
  innerTimeout : Int
  deriving Repr

/-- The `/candles` handler under its `async_endpoint` wrapper, on an
execution where the outer deadline does not expire (`app.py` lines
138-152): read the raw `timeout` query parameter, call `get_candle`
with it, and return the 200 success envelope. -/
def get_candles_route (pool : Pool) (asset : String) (timeoutParam : Option Int)
    (connectRes : ExtResult (Bool × String)) (fetchRes : ExtResult (List Candle))
    (t1 t2 : Int) : RouteResult :=
  let timeout := request_arg_get timeoutParam DEFAULT_TIMEOUT
  let r := get_candle pool asset connectRes fetchRes t1 t2
  let body : Json := .obj [("status", .str "success"),
    ("data", .arr (r.candles.map Json.num)), ("count", .num r.candles.length)]
  let resp := async_endpoint_wrap (.ok (200, body))
  ⟨resp.1, resp.2, r.pool, r.connectCalls, timeout⟩

/-- One cycle of `cleanup_connections` (`app.py` lines 186-196): collect
the assets whose entry satisfies `current_time - last_used > 600`, then
delete those keys from the dict. -/
def cleanup_connections_cycle (pool : Pool) (current_time : Int) : Pool :=
  let stale_connections :=
    (pool.filter (fun p => current_time - p.2.last_used > 600)).map Prod.fst
  pool.filter (fun p => ¬ p.1 ∈ stale_connections)

/-- The `connections` field of the `/health` response (`app.py` line
213): `len(connection_pool)`. -/
def health_connections (pool : Pool) : Nat := pool.length

/-- The number of live entries (entries with `connected=True`) in the
pool — the quantity the spec says `/health` reports. -/
def liveConnections (pool : Pool) : Nat :=
  (pool.filter (fun p => p.2.connected)).length

/-- Whether the pool keys are pairwise distinct — the dictionary
invariant every reachable `connection_pool` satisfies. -/
def poolKeysNodup (pool : Pool) : Prop := (pool.map Prod.fst).Nodup

instance (pool : Pool) : Decidable (poolKeysNodup pool) := by
  unfold poolKeysNodup; infer_instance

example :
    cleanup_connections_cycle [("A", ⟨0, true, 100⟩), ("B", ⟨0, false, 800⟩)] 1000 =
      [("B", ⟨0, false, 800⟩)] := by decide

example :
    (get_candles_route [] "A" (some 1000) (.ok (false, "denied")) (.ok [1]) 5 6) =
      ⟨200, .obj [("status", .str "success"), ("data", .arr []), ("count", .num 0)],
        [], 1, 1000⟩ := rfl

/-- Whether the external `connect()` call completed with `check_connect`
true (`app.py` lines 50-51). -/
def connectOk : ExtResult (Bool × String) → Bool
  | .ok (check_connect, _) => check_connect
  | .timeout => false
  | .exn _ => false

/-- Whether the connect step, once reached, fails: not-ok, timed out, or
raised (`app.py` lines 50, 57-59, 77, 83). -/
def connectFailed : ExtResult (Bool × String) → Bool
  | .ok (check_connect, _) => !check_connect
  | .timeout => true
  | .exn _ => true

/-- The pool-reuse guard of `get_candle` (`app.py` line 44):
`asset in connection_pool and connection_pool[asset]['connected']`. -/
def hasLive (pool : Pool) (asset : String) : Bool :=
  match poolLookup pool asset with
  | some e => e.connected
  | none => false

/-- How many times a body outcome invoked the external `connect()`. -/
def BodyOut.callCount : BodyOut → Nat
  | .ret _ _ calls _ => calls
  | .raise _ _ calls _ => calls

/-- Which client handle a body outcome attempted the fetch on. -/
def BodyOut.clientUsed : BodyOut → Option Int
  | .ret _ _ _ uc => uc
  | .raise _ _ _ uc => uc

lemma get_candle_connectCalls_eq (pool : Pool) (asset : String)
    (cr : ExtResult (Bool × String)) (fr : ExtResult (List Candle)) (t1 t2 : Int) :
    (get_candle pool asset cr fr t1 t2).connectCalls =
      (get_candle_body pool asset cr fr t1 t2).callCount := by
  unfold get_candle
  rcases get_candle_body pool asset cr fr t1 t2 with _ | ⟨ex, p, calls, uc⟩
  · rfl
  · cases ex <;> rfl

lemma get_candle_usedClient_eq (pool : Pool) (asset : String)
    (cr : ExtResult (Bool × String)) (fr : ExtResult (List Candle)) (t1 t2 : Int) :
    (get_candle pool asset cr fr t1 t2).usedClient =
      (get_candle_body pool asset cr fr t1 t2).clientUsed := by
  unfold get_candle
  rcases get_candle_body pool asset cr fr t1 t2 with _ | ⟨ex, p, calls, uc⟩
  · rfl
  · cases ex <;> rfl

lemma fetchStage_callCount (pool : Pool) (asset : String) (cl : Int) (calls : Nat)
    (fr : ExtResult (List Candle)) (t2 : Int) :
    (fetchStage pool asset cl calls fr t2).callCount = calls := by
  cases fr with
  | ok cs => by_cases h : cs.length > 0 <;> simp [fetchStage, h, BodyOut.callCount]
  | timeout => rfl
  | exn e => rfl

lemma fetchStage_clientUsed (pool : Pool) (asset : String) (cl : Int) (calls : Nat)
    (fr : ExtResult (List Candle)) (t2 : Int) :
    (fetchStage pool asset cl calls fr t2).clientUsed = some cl := by
  cases fr with
  | ok cs => by_cases h : cs.length > 0 <;> simp [fetchStage, h, BodyOut.clientUsed]
  | timeout => rfl
  | exn e => rfl

lemma connectStage_callCount (pool : Pool) (asset : String)
    (cr : ExtResult (Bool × String)) (fr : ExtResult (List Candle)) (t1 t2 : Int) :
    (connectStage pool asset cr fr t1 t2).callCount = 1 := by
  cases cr with
  | ok p =>
      rcases p with ⟨check, m⟩
      unfold connectStage
      by_cases h : check = true
      · simp only [h, if_true]
        exact fetchStage_callCount _ _ _ _ _ _
      · simp only [h]
        simp at h
        simp [h]
        rfl
  | timeout => rfl
  | exn e => rfl

/-- C1: the `async_endpoint` wrapper maps a deadline expiry to HTTP 408
with body `{status:'error', message:'Request timed out', data:[]}`, and
any other exception to HTTP 500 with the exception's message in the same
error envelope. -/
theorem C1_async_endpoint_error_responses (msg : String) :
    async_endpoint_wrap .timeout =
      (408, .obj [("status", .str "error"), ("message", .str "Request timed out"),
        ("data", .arr [])]) ∧
    async_endpoint_wrap (.exn msg) =
      (500, .obj [("status", .str "error"), ("message", .str msg),
        ("data", .arr [])]) :=
  ⟨rfl, rfl⟩

/-- C2: a retrieval for an asset with no pool entry invokes the external
`connect()` exactly once; a retrieval while the pool holds an entry with
`connected=true` invokes `connect()` zero times and attempts the fetch
on that entry's stored client handle. -/
theorem C2_pool_reuse (pool : Pool) (asset : String)
    (connectRes : ExtResult (Bool × String)) (fetchRes : ExtResult (List Candle))
    (t1 t2 : Int) :
    (poolLookup pool asset = none →
      (get_candle pool asset connectRes fetchRes t1 t2).connectCalls = 1) ∧
    (∀ e, poolLookup pool asset = some e → e.connected = true →
      (get_candle pool asset connectRes fetchRes t1 t2).connectCalls = 0 ∧
      (get_candle pool asset connectRes fetchRes t1 t2).usedClient = some e.client) := by
  constructor
  · intro h
    rw [get_candle_connectCalls_eq]
    unfold get_candle_body
    rw [h]
    exact connectStage_callCount _ _ _ _ _ _
  · intro e he hc
    rw [get_candle_connectCalls_eq, get_candle_usedClient_eq]
    unfold get_candle_body
    rw [he]
    simp only [hc, if_true]
    exact ⟨fetchStage_callCount _ _ _ _ _ _, fetchStage_clientUsed _ _ _ _ _ _⟩

theorem C2_pool_reuse_witness :
    (get_candle [] "EURUSD_otc" (.ok (true, "ok")) (.ok [1]) 0 0).connectCalls = 1 ∧
    (get_candle [("EURUSD_otc", ⟨7, true, 0⟩)] "EURUSD_otc"
      (.ok (true, "ok")) (.ok [1]) 0 0).connectCalls = 0 ∧
    (get_candle [("EURUSD_otc", ⟨7, true, 0⟩)] "EURUSD_otc"
      (.ok (true, "ok")) (.ok [1]) 0 0).usedClient = some 7 := by
  refine ⟨(C2_pool_reuse [] "EURUSD_otc" (.ok (true, "ok")) (.ok [1]) 0 0).1 rfl, ?_, ?_⟩
  · exact ((C2_pool_reuse [("EURUSD_otc", ⟨7, true, 0⟩)] "EURUSD_otc"
      (.ok (true, "ok")) (.ok [1]) 0 0).2 ⟨7, true, 0⟩ rfl rfl).1
  · exact ((C2_pool_reuse [("EURUSD_otc", ⟨7, true, 0⟩)] "EURUSD_otc"
      (.ok (true, "ok")) (.ok [1]) 0 0).2 ⟨7, true, 0⟩ rfl rfl).2

/-- C9: whatever exception escapes the `try` body of `get_candle` — the
timeout raised by either `wait_for` or any other exception from the
connect/fetch calls — the handlers catch it and `get_candle` returns the
empty list; no exception propagates to the caller. -/
theorem C9_exceptions_become_empty_list (pool : Pool) (asset : String)
    (connectRes : ExtResult (Bool × String)) (fetchRes : ExtResult (List Candle))
    (t1 t2 : Int) :
    ∀ ex p calls uc,
      get_candle_body pool asset connectRes fetchRes t1 t2 = .raise ex p calls uc →
      (get_candle pool asset connectRes fetchRes t1 t2).candles = [] := by
  intro ex p calls uc h
  unfold get_candle
  rw [h]
  cases ex <;> rfl

theorem C9_witness :
    get_candle_body [] "CHFJPY_otc" .timeout (.ok []) 0 0 =
      .raise .timeoutErr [] 1 none ∧
    (get_candle [] "CHFJPY_otc" .timeout (.ok []) 0 0).candles = [] :=
  ⟨rfl, C9_exceptions_become_empty_list [] "CHFJPY_otc" .timeout (.ok []) 0 0
    .timeoutErr [] 1 none rfl⟩

/-- C4: the deadline enforced by `async_endpoint` at the candle routes
is the `timeout` query parameter when it is at most 55, is 55 when the
parameter exceeds 55 (in particular 1000 yields 55), and defaults to 25
when the parameter is absent. -/
theorem C4_effective_deadline (t : Int) :
    async_endpoint_timeout DEFAULT_TIMEOUT (some t) = (if t > 55 then 55 else t) ∧
    async_endpoint_timeout DEFAULT_TIMEOUT none = 25 ∧
    async_endpoint_timeout DEFAULT_TIMEOUT (some 1000) = 55 :=
  ⟨rfl, rfl, rfl⟩

/-- C10: the 55-second clamp exists only in the `async_endpoint`
decorator; the `timeout` query value the `/candles` handler forwards
into `get_candle` for the inner connect/fetch deadlines is the raw
parameter (1000 stays 1000), with no lower bound, so zero and negative
values pass through unchanged. -/
theorem C10_inner_timeout_unclamped (t : Int) (pool : Pool) (asset : String)
    (connectRes : ExtResult (Bool × String)) (fetchRes : ExtResult (List Candle))
    (t1 t2 : Int) :
    (get_candles_route pool asset (some t) connectRes fetchRes t1 t2).innerTimeout = t ∧
    async_endpoint_timeout DEFAULT_TIMEOUT (some t) = (if t > 55 then 55 else t) ∧
    (get_candles_route pool asset (some 1000) connectRes fetchRes t1 t2).innerTimeout = 1000 ∧
    (get_candles_route pool asset (some (-3)) connectRes fetchRes t1 t2).innerTimeout = -3 ∧
    (get_candles_route pool asset (some 0) connectRes fetchRes t1 t2).innerTimeout = 0 :=
  ⟨rfl, rfl, rfl, rfl, rfl⟩

lemma pool_entry_unique (pool : Pool) (a : String) (e e' : PoolEntry) :
    poolKeysNodup pool → (a, e) ∈ pool → (a, e') ∈ pool → e = e' := by
  induction pool with
  | nil => intro _ h1 _; simp at h1
  | cons hd rest ih =>
      intro h h1 h2
      unfold poolKeysNodup at h
      rw [List.map_cons, List.nodup_cons] at h
      rcases h with ⟨hnot, hrest⟩
      rcases List.mem_cons.mp h1 with h1 | h1 <;> rcases List.mem_cons.mp h2 with h2 | h2
      · exact congrArg Prod.snd (h1.trans h2.symm)
      · exfalso
        apply hnot
        rw [← h1]
        exact List.mem_map.mpr ⟨(a, e'), h2, rfl⟩
      · exfalso
        apply hnot
        rw [← h2]
        exact List.mem_map.mpr ⟨(a, e), h1, rfl⟩
      · exact ih hrest h1 h2

/-- C3: one cycle of `cleanup_connections` removes exactly the entries
with `current_time - last_used > 600` and keeps every other entry with
all its fields (client, connected, last_used) unchanged. -/
theorem C3_sweep_exact (pool : Pool) (current_time : Int)
    (hnd : poolKeysNodup pool) (a : String) (e : PoolEntry) :
    (a, e) ∈ cleanup_connections_cycle pool current_time ↔
      (a, e) ∈ pool ∧ current_time - e.last_used ≤ 600 := by
  unfold cleanup_connections_cycle
  simp only [List.mem_filter, decide_eq_true_iff]
  constructor
  · rintro ⟨hmem, hns⟩
    refine ⟨hmem, ?_⟩
    by_contra hgt
    push_neg at hgt
    apply hns
    refine List.mem_map.mpr ⟨(a, e), List.mem_filter.mpr ⟨hmem, ?_⟩, rfl⟩
    exact decide_eq_true hgt
  · rintro ⟨hmem, hle⟩
    refine ⟨hmem, ?_⟩
    intro hin
    rcases List.mem_map.mp hin with ⟨⟨a2, e2⟩, hf, hfst⟩
    rcases List.mem_filter.mp hf with ⟨hmem2, hcond⟩
    have ha : a2 = a := hfst
    rw [ha] at hmem2
    have he : e = e2 := pool_entry_unique pool a e e2 hnd hmem hmem2
    have hgt : current_time - e2.last_used > 600 := of_decide_eq_true hcond
    rw [← he] at hgt
    omega

theorem C3_sweep_exact_witness :
    poolKeysNodup [("A", (⟨0, true, 100⟩ : PoolEntry)), ("B", ⟨0, false, 800⟩)] ∧
    (("B", (⟨0, false, 800⟩ : PoolEntry)) ∈
        cleanup_connections_cycle
          [("A", ⟨0, true, 100⟩), ("B", ⟨0, false, 800⟩)] 1000 ↔
      ("B", (⟨0, false, 800⟩ : PoolEntry)) ∈
        ([("A", ⟨0, true, 100⟩), ("B", ⟨0, false, 800⟩)] : Pool) ∧
      (1000 : Int) - (800 : Int) ≤ 600) :=
  ⟨by decide, C3_sweep_exact _ 1000 (by decide) "B" ⟨0, false, 800⟩⟩

lemma poolLookup_markDisconnected (pool : Pool) (a : String) :
    poolLookup (markDisconnected pool a) a =
      (poolLookup pool a).map (fun e => { e with connected := false }) := by
  induction pool with
  | nil => rfl
  | cons hd rest ih =>
      rcases hd with ⟨k, e⟩
      by_cases hk : k = a
      · simp [markDisconnected, poolLookup, hk]
      · simp [markDisconnected, poolLookup, hk, ih]

/-- C5: when the connect step is the one executed (no live pool entry
for the asset) and it fails — not-ok, raised, or timed out — the
retrieval returns the empty list and any pool entry for the asset ends
with `connected=false`. -/
theorem C5_connect_failure (pool : Pool) (asset : String)
    (connectRes : ExtResult (Bool × String)) (fetchRes : ExtResult (List Candle))
    (t1 t2 : Int)
    (hnolive : ∀ e, poolLookup pool asset = some e → e.connected = false)
    (hfail : connectFailed connectRes = true) :
    (get_candle pool asset connectRes fetchRes t1 t2).candles = [] ∧
    ∀ e, poolLookup (get_candle pool asset connectRes fetchRes t1 t2).pool asset =
        some e → e.connected = false := by
  have hbody : get_candle_body pool asset connectRes fetchRes t1 t2 =
      connectStage pool asset connectRes fetchRes t1 t2 := by
    unfold get_candle_body
    cases hl : poolLookup pool asset with
    | some e => simp [hnolive e hl]
    | none => rfl
  rcases connectRes with ⟨check, m⟩ | _ | ex
  · have hck : check = false := by
      unfold connectFailed at hfail
      simpa using hfail
    have hgc : get_candle pool asset (.ok (check, m)) fetchRes t1 t2 =
        ⟨[], pool, 1, none⟩ := by
      unfold get_candle
      rw [hbody]
      rw [hck]
      rfl
    rw [hgc]
    exact ⟨rfl, hnolive⟩
  · have hgc : get_candle pool asset .timeout fetchRes t1 t2 =
        ⟨[], markDisconnected pool asset, 1, none⟩ := by
      unfold get_candle
      rw [hbody]
      rfl
    rw [hgc]
    refine ⟨rfl, ?_⟩
    intro e he
    rw [poolLookup_markDisconnected] at he
    rcases hl : poolLookup pool asset with _ | e0 <;> rw [hl] at he
    · simp at he
    · simp at he
      rw [← he]
  · have hgc : get_candle pool asset (.exn ex) fetchRes t1 t2 =
        ⟨[], pool, 1, none⟩ := by
      unfold get_candle
      rw [hbody]
      rfl
    rw [hgc]
    exact ⟨rfl, hnolive⟩

theorem C5_connect_failure_witness :
    (∀ e, poolLookup [("A", (⟨0, false, 3⟩ : PoolEntry))] "A" = some e →
      e.connected = false) ∧
    (get_candle [("A", ⟨0, false, 3⟩)] "A" .timeout (.ok [1]) 0 0).candles = [] ∧
    ∀ e, poolLookup (get_candle [("A", ⟨0, false, 3⟩)] "A"
        .timeout (.ok [1]) 0 0).pool "A" = some e → e.connected = false := by
  have hnolive : ∀ e, poolLookup [("A", (⟨0, false, 3⟩ : PoolEntry))] "A" = some e →
      e.connected = false := by
    intro e he
    have : (⟨0, false, 3⟩ : PoolEntry) = e := by
      simpa [poolLookup] using he
    rw [← this]
  exact ⟨hnolive, C5_connect_failure [("A", ⟨0, false, 3⟩)] "A" .timeout (.ok [1]) 0 0
    hnolive rfl⟩

/-- C6 counterexample: after a single request on an empty pool whose
connect succeeds and whose fetch times out, the pool holds one entry
with `connected=false`; `/health` then reports `connections = 1` while
the number of live entries is 0, refuting the claim that the two agree
for every pool state. -/
theorem C6_health_counterexample :
    ¬ (health_connections
        (get_candle [] "EURUSD_otc" (.ok (true, "ok")) .timeout 0 0).pool =
       liveConnections
        (get_candle [] "EURUSD_otc" (.ok (true, "ok")) .timeout 0 0).pool) := by
  decide

/-- C6 (amended): the `connections` field of `/health` equals the total
number of pool entries — the live (connected=true) entries plus the dead
(connected=false) ones — rather than the number of live entries alone;
the count is independent of the order in which the entries were added. -/
theorem C6_health_counts_all_entries (pool pool2 : Pool) (hperm : pool.Perm pool2) :
    health_connections pool =
      liveConnections pool +
        (pool.filter (fun p : String × PoolEntry => ! p.2.connected)).length ∧
    health_connections pool = health_connections pool2 := by
  constructor
  · exact List.length_eq_length_filter_add
      (fun p : String × PoolEntry => p.2.connected)
  · exact hperm.length_eq

theorem C6_health_witness :
    health_connections [("A", (⟨0, true, 1⟩ : PoolEntry)), ("B", ⟨0, false, 2⟩)] =
      liveConnections [("A", ⟨0, true, 1⟩), ("B", ⟨0, false, 2⟩)] +
        (([("A", ⟨0, true, 1⟩), ("B", ⟨0, false, 2⟩)] : Pool).filter
          (fun p : String × PoolEntry => ! p.2.connected)).length ∧
    health_connections [("A", (⟨0, true, 1⟩ : PoolEntry)), ("B", ⟨0, false, 2⟩)] =
      health_connections [("B", ⟨0, false, 2⟩), ("A", ⟨0, true, 1⟩)] :=
  C6_health_counts_all_entries _ _ (by decide)

lemma get_candle_fetch_nil (pool : Pool) (asset : String)
    (cr : ExtResult (Bool × String)) (t1 t2 : Int) :
    (get_candle pool asset cr (.ok []) t1 t2).candles = [] := by
  cases hl : poolLookup pool asset with
  | some e =>
      by_cases hc : e.connected
      · simp [get_candle, get_candle_body, hl, hc, fetchStage]
      · rcases cr with ⟨check, m⟩ | _ | ex
        · by_cases hck : check = true <;>
            simp [get_candle, get_candle_body, connectStage, hl, hc, hck, fetchStage]
        · simp [get_candle, get_candle_body, connectStage, hl, hc]
        · simp [get_candle, get_candle_body, connectStage, hl, hc]
  | none =>
      rcases cr with ⟨check, m⟩ | _ | ex
      · by_cases hck : check = true <;>
          simp [get_candle, get_candle_body, connectStage, hl, hck, fetchStage]
      · simp [get_candle, get_candle_body, connectStage, hl]
      · simp [get_candle, get_candle_body, connectStage, hl]

/-- C7: a request whose retrieval reaches the fetch (a live pool entry
exists, or the connect completed ok) and fetches an empty candle
sequence gets HTTP 200 with the success envelope `data: []`,
`count: 0`, not an error response. -/
theorem C7_empty_success_envelope (pool : Pool) (asset : String)
    (timeoutParam : Option Int) (connectRes : ExtResult (Bool × String)) (t1 t2 : Int)
    (h : hasLive pool asset = true ∨ connectOk connectRes = true) :
    (get_candles_route pool asset timeoutParam connectRes (.ok []) t1 t2).status = 200 ∧
    (get_candles_route pool asset timeoutParam connectRes (.ok []) t1 t2).body =
      .obj [("status", .str "success"), ("data", .arr []), ("count", .num 0)] := by
  have hnil := get_candle_fetch_nil pool asset connectRes t1 t2
  unfold get_candles_route
  refine ⟨rfl, ?_⟩
  simp [async_endpoint_wrap, hnil]

theorem C7_empty_success_witness :
    (hasLive [("A", (⟨0, true, 5⟩ : PoolEntry))] "A" = true ∨
      connectOk (.ok (true, "ok")) = true) ∧
    (get_candles_route [("A", ⟨0, true, 5⟩)] "A" none
      (.ok (true, "ok")) (.ok []) 0 0).status = 200 ∧
    (get_candles_route [("A", ⟨0, true, 5⟩)] "A" none
      (.ok (true, "ok")) (.ok []) 0 0).body =
      .obj [("status", .str "success"), ("data", .arr []), ("count", .num 0)] :=
  ⟨Or.inl rfl, C7_empty_success_envelope [("A", ⟨0, true, 5⟩)] "A" none
    (.ok (true, "ok")) 0 0 (Or.inl rfl)⟩

lemma get_candle_body_no_live (pool : Pool) (asset : String)
    (cr : ExtResult (Bool × String)) (fr : ExtResult (List Candle)) (t1 t2 : Int)
    (h : hasLive pool asset = false) :
    get_candle_body pool asset cr fr t1 t2 = connectStage pool asset cr fr t1 t2 := by
  unfold get_candle_body
  unfold hasLive at h
  cases hl : poolLookup pool asset with
  | some e =>
      rw [hl] at h
      have h2 : e.connected = false := h
      simp [h2]
  | none => rfl

/-- C8: when the connect step runs and completes with `check_connect`
not-ok, the retrieval surfaces the failure as empty data, the endpoint
still answers HTTP 200 with the success envelope, and the external
`connect()` is invoked exactly once — no retry within the request. -/
theorem C8_connect_not_ok (pool : Pool) (asset : String)
    (timeoutParam : Option Int) (message : String) (fetchRes : ExtResult (List Candle))
    (t1 t2 : Int) (h : hasLive pool asset = false) :
    (get_candles_route pool asset timeoutParam (.ok (false, message))
      fetchRes t1 t2).status = 200 ∧
    (get_candles_route pool asset timeoutParam (.ok (false, message))
      fetchRes t1 t2).body =
      .obj [("status", .str "success"), ("data", .arr []), ("count", .num 0)] ∧
    (get_candles_route pool asset timeoutParam (.ok (false, message))
      fetchRes t1 t2).connectCalls = 1 := by
  have hbody := get_candle_body_no_live pool asset (.ok (false, message)) fetchRes t1 t2 h
  have hgc : get_candle pool asset (.ok (false, message)) fetchRes t1 t2 =
      ⟨[], pool, 1, none⟩ := by
    unfold get_candle
    rw [hbody]
    rfl
  unfold get_candles_route
  rw [hgc]
  exact ⟨rfl, rfl, rfl⟩

theorem C8_connect_not_ok_witness :
    hasLive [] "CHFJPY_otc" = false ∧
    (get_candles_route [] "CHFJPY_otc" none (.ok (false, "denied"))
      (.ok [1, 2]) 0 0).status = 200 ∧
    (get_candles_route [] "CHFJPY_otc" none (.ok (false, "denied"))
      (.ok [1, 2]) 0 0).body =
      .obj [("status", .str "success"), ("data", .arr []), ("count", .num 0)] ∧
    (get_candles_route [] "CHFJPY_otc" none (.ok (false, "denied"))
      (.ok [1, 2]) 0 0).connectCalls = 1 :=
  ⟨rfl, C8_connect_not_ok [] "CHFJPY_otc" none "denied" (.ok [1, 2]) 0 0 rfl⟩
